import Mathlib

/-!
Verification of the GULF RPAS flight-log application (src/unnamed/part_000).

The file embeds the data model and the operations of the application as
executable Lean definitions and proves the frozen claims about them.
JavaScript strings become `String`, arrays become `List`, plain objects used
as maps (the risk table) become association lists in insertion order, and
object spread / `delete` become the corresponding list operations.  React
state is threaded explicitly: a handler that reads a `useState` value reads
the value captured at render time, and a plain `setX(value)` call replaces
the whole value, so several calls inside one event handler all start from
the same snapshot and the last call wins.  Fallible code (a thrown
exception) returns `Option`.
-/

/-! ### Date-time utilities

`addMinutes` in the source parses a `datetime-local` string with
`new Date(...)` (local wall time), shifts it with `setMinutes`, and
re-serialises the local wall time via the timezone-offset adjustment and
`toISOString().slice(0, 16)`.  The offset is added and removed again, so the
net effect is plain calendar arithmetic on the wall-time fields, which is
what the embedding computes.  An unparsable non-empty string makes
`new Date(...).toISOString()` throw a RangeError; that is the `none` case. -/

structure DateTime where
  year : Nat
  month : Nat
  day : Nat
  hour : Nat
  minute : Nat
deriving DecidableEq

def isLeapYear (y : Nat) : Bool :=
  (y % 4 == 0 && y % 100 != 0) || y % 400 == 0

def daysInMonth (y m : Nat) : Nat :=
  if m = 2 then (if isLeapYear y then 29 else 28)
  else if m = 4 ∨ m = 6 ∨ m = 9 ∨ m = 11 then 30
  else 31

def digitVal (c : Char) : Nat := c.toNat - 48

def digitChar (n : Nat) : Char := Char.ofNat (48 + n % 10)

def pad2 (n : Nat) : String := String.mk [digitChar (n / 10), digitChar n]

def pad4 (n : Nat) : String :=
  String.mk [digitChar (n / 1000), digitChar (n / 100), digitChar (n / 10), digitChar n]

def parseDateTimeLocal (s : String) : Option DateTime :=
  match s.data with
  | [y1, y2, y3, y4, s1, m1, m2, s2, d1, d2, t1, h1, h2, c1, n1, n2] =>
    if s1 = '-' ∧ s2 = '-' ∧ t1 = 'T' ∧ c1 = ':' ∧
       y1.isDigit ∧ y2.isDigit ∧ y3.isDigit ∧ y4.isDigit ∧
       m1.isDigit ∧ m2.isDigit ∧ d1.isDigit ∧ d2.isDigit ∧
       h1.isDigit ∧ h2.isDigit ∧ n1.isDigit ∧ n2.isDigit then
      let year := digitVal y1 * 1000 + digitVal y2 * 100 + digitVal y3 * 10 + digitVal y4
      let month := digitVal m1 * 10 + digitVal m2
      let day := digitVal d1 * 10 + digitVal d2
      let hour := digitVal h1 * 10 + digitVal h2
      let minute := digitVal n1 * 10 + digitVal n2
      if 1 ≤ month ∧ month ≤ 12 ∧ 1 ≤ day ∧ day ≤ daysInMonth year month ∧
         hour ≤ 23 ∧ minute ≤ 59 then
        some ⟨year, month, day, hour, minute⟩
      else none
    else none
  | _ => none

/-- Days since 1970-01-01 of a civil date (proleptic Gregorian calendar),
the arithmetic `Date` performs internally. -/
def daysFromCivil (year month day : Nat) : Int :=
  let y : Int := if month ≤ 2 then (year : Int) - 1 else (year : Int)
  let era : Int := Int.ediv y 400
  let yoe : Int := y - era * 400
  let mp : Int := ((month + 9) % 12 : Nat)
  let doy : Int := Int.ediv (153 * mp + 2) 5 + (day : Int) - 1
  let doe : Int := yoe * 365 + Int.ediv yoe 4 - Int.ediv yoe 100 + doy
  era * 146097 + doe - 719468

/-- Inverse of `daysFromCivil`: (year, month, day) of a day number. -/
def civilFromDays (days : Int) : Nat × Nat × Nat :=
  let z : Int := days + 719468
  let era : Int := Int.ediv z 146097
  let doe : Nat := (z - era * 146097).toNat
  let yoe : Nat := (doe - doe / 1460 + doe / 36524 - doe / 146096) / 365
  let doy : Nat := doe - (365 * yoe + yoe / 4 - yoe / 100)
  let mp : Nat := (5 * doy + 2) / 153
  let d : Nat := doy - (153 * mp + 2) / 5 + 1
  let m : Nat := if mp < 10 then mp + 3 else mp - 9
  let y : Int := (yoe : Int) + era * 400 + (if m ≤ 2 then 1 else 0)
  (y.toNat, m, d)

def dtTotalMinutes (dt : DateTime) : Int :=
  daysFromCivil dt.year dt.month dt.day * 1440 + (dt.hour : Int) * 60 + (dt.minute : Int)

def dtOfTotalMinutes (t : Int) : DateTime :=
  let dayRem : Nat := (Int.emod t 1440).toNat
  let c := civilFromDays (Int.ediv t 1440)
  ⟨c.1, c.2.1, c.2.2, dayRem / 60, dayRem % 60⟩

def formatDateTimeLocal (dt : DateTime) : String :=
  pad4 dt.year ++ "-" ++ pad2 dt.month ++ "-" ++ pad2 dt.day ++ "T" ++
    pad2 dt.hour ++ ":" ++ pad2 dt.minute

/-- `addMinutes(dateString, minutes)` of the source: empty input short-circuits
to the empty string; otherwise parse, shift, re-serialise; `none` models the
RangeError thrown on a non-empty string `new Date` cannot parse. -/
def addMinutes (dateString : String) (minutes : Int) : Option String :=
  if dateString = "" then some ""
  else (parseDateTimeLocal dateString).map
    (fun dt => formatDateTimeLocal (dtOfTotalMinutes (dtTotalMinutes dt + minutes)))

/-! ### Id generation

`generateId = () => Math.random().toString(36).substr(2, 9)`.
`toString(36)` of a value in `[0, 1)` renders as the character `0`, a dot,
then the base-36 fraction digits (just the character `0` when the value is
exactly 0, which `Math.random` may return); `substr(2, 9)` keeps at most the
first nine fraction digits.  The fraction-digit list is the parameter. -/
def generateId (fracDigits : List Char) : String :=
  String.mk (fracDigits.take 9)

/-! ### CSV escaping (`escapeCSV` inside `exportToCSV`) -/

/-- The `includes` tests of the source: the value contains a comma, a double
quote or a newline. -/
def needsQuoting (s : String) : Bool :=
  s.data.contains ',' || s.data.contains '"' || s.data.contains '\n'

/-- `replace(/"/g, String.fromCharCode(34, 34))`: every double quote doubled. -/
def doubleQuotes : List Char → List Char
  | [] => []
  | c :: rest => (if c = '"' then ['"', '"'] else [c]) ++ doubleQuotes rest

def escapeCSV (s : String) : String :=
  if needsQuoting s then "\"" ++ String.mk (doubleQuotes s.data) ++ "\"" else s

/-- The null/undefined guard of the source maps an absent value to the empty
string before the string case runs. -/
def escapeCSVField : Option String → String
  | none => ""
  | some s => escapeCSV s

/-- Standard CSV unquoting of a single field (stated from the round-trip
sentence of the spec): a field wrapped in double quotes is stripped and each
doubled quote collapsed; any other field is taken verbatim. -/
def undouble : List Char → List Char
  | [] => []
  | [c] => [c]
  | c1 :: c2 :: rest =>
    if c1 = '"' ∧ c2 = '"' then '"' :: undouble rest
    else c1 :: undouble (c2 :: rest)

def parseCSVField (s : String) : String :=
  match s.data with
  | '"' :: rest =>
    if rest.getLast? = some '"' then String.mk (undouble rest.dropLast) else s
  | _ => s

/-! ### Risk table -/

structure RiskEntry where
  checked : Bool
  level : String
  desc : String
  mitigation : String
deriving DecidableEq

/-- The `risks` object, as an association list in insertion order (JS objects
enumerate string keys in insertion order). -/
abbrev RiskMap := List (String × RiskEntry)

/-- Property access `risks[name]`. -/
def lookupKey : RiskMap → String → Option RiskEntry
  | [], _ => none
  | p :: rest, k => if p.1 = k then some p.2 else lookupKey rest k

/-- Spread-assignment `{ ...risks, [name]: v }`: an existing key keeps its
position and gets the new value, a new key is appended. -/
def setKey : RiskMap → String → RiskEntry → RiskMap
  | [], k, v => [(k, v)]
  | p :: rest, k, v => if p.1 = k then (k, v) :: rest else p :: setKey rest k v

/-- `delete risks[name]`. -/
def delKey : RiskMap → String → RiskMap
  | [], _ => []
  | p :: rest, k => if p.1 = k then delKey rest k else p :: delKey rest k

def defaultRiskEntry : RiskEntry :=
  { checked := false, level := "", desc := "", mitigation := "" }

/-- The `(field, value)` pair passed to `handleRiskChange`: `checked` carries
a boolean, the other fields carry strings. -/
inductive RiskUpdate where
  | checked (b : Bool)
  | level (v : String)
  | desc (v : String)
  | mitigation (v : String)
deriving DecidableEq

/-- `handleRiskChange(riskName, field, value)` of the source: unchecking
deletes the entry outright; any other update spreads the current entry (or
the default) with the named sub-field overwritten. -/
def handleRiskChange (risks : RiskMap) (riskName : String) (u : RiskUpdate) : RiskMap :=
  let currentRisk := (lookupKey risks riskName).getD defaultRiskEntry
  match u with
  | .checked false => delKey risks riskName
  | .checked true => setKey risks riskName { currentRisk with checked := true }
  | .level v => setKey risks riskName { currentRisk with level := v }
  | .desc v => setKey risks riskName { currentRisk with desc := v }
  | .mitigation v => setKey risks riskName { currentRisk with mitigation := v }

/-- `Array.prototype.join(sep)`. -/
def joinSep (sep : String) : List String → String
  | [] => ""
  | [x] => x
  | x :: xs => x ++ sep ++ joinSep sep xs

/-- The per-entry rendering inside `formatRisks`. -/
def renderRisk (key : String) (val : RiskEntry) : String :=
  let level := if val.level = "" then "-" else val.level
  let mit := if val.mitigation = "" then "" else " (Mitigation: " ++ val.mitigation ++ ")"
  key ++ " [" ++ level ++ "]" ++ mit

/-- `formatRisks(risks)` of the source: a missing or empty risks object
renders as None, otherwise the checked entries are rendered and joined. -/
def formatRisks : Option RiskMap → String
  | none => "None"
  | some risks =>
    if risks = [] then "None"
    else joinSep " | "
      ((risks.filter (fun p => p.2.checked)).map (fun p => renderRisk p.1 p.2))

/-- The fixed hazard checklist `RISK_ITEMS`. -/
def RISK_ITEMS : List String :=
  ["Presence of people", "Proximity to built-up area", "Proximity to obstacles",
   "Proximity to protected birds or animals", "Proximity to air traffic",
   "Operation in control zones", "Airspace restriction (F zone)", "Risk of radio interference",
   "Proximity to magnetic fields", "Environment with sand or dust in suspension",
   "Proximity to glass buildings", "Strong wind condition", "Very cold weather",
   "Heat wave condition (heat stress)", "Municipal restriction", "Risk of intrusion into privacy",
   "Proximity of pyrotechnic", "Drone not contrasted with the horizon", "Any other risk"]

/-- The no-entry-unless-checked invariant of the risk table (section 3 of
the spec): every entry present in `risks` is checked. -/
def riskInv (rs : RiskMap) : Prop := ∀ p ∈ rs, p.2.checked = true

/-! ### Suggestion-list store -/

/-- The suggestion-list store: one ordered list of strings per list name. -/
structure ListStore where
  rpas : List String
  pilots : List String
  payload : List String
  opCategories : List String
  observers : List String
  types : List String
  locations : List String
  airspaces : List String
  aerodromes : List String
  airspaceTypes : List String
deriving DecidableEq

/-- `DEFAULT_LISTS` of the source, verbatim. -/
def DEFAULT_LISTS : ListStore where
  rpas := ["Mavic 2 Enterprise", "Matrice 300", "Mini 3 Pro"]
  pilots := ["Officer Smith", "Officer Jones"]
  payload := ["Visual", "Thermal", "LiDAR"]
  opCategories := ["Microdrone", "Basic", "Advanced", "Level 1 Complex", "SFOC"]
  observers := ["None"]
  types := ["Training", "Enforcement", "Search & Rescue", "Habitat Survey"]
  locations := []
  airspaces := ["Class G", "Class F", "Class C", "Class D", "Class E"]
  aerodromes :=
    ["Fredericton (CYFC) - 119.5", "Moncton (CYQM) - 120.8", "Saint John (CYSJ) - 118.5",
     "Bathurst (CYBF) - 122.3", "Miramichi (CYCH) - 122.8",
     "Charlottetown (CYYG) - 118.0", "Summerside (CYSU) - 122.3",
     "Halifax (CYHZ) - 118.7", "Sydney (CYQY) - 118.7", "Yarmouth (CYQY) - 122.3",
     "Greenwood (CYZX) - 119.5", "Trenton (CYTN) - 122.8"]
  airspaceTypes := ["Uncontrolled", "Controlled", "Restricted"]

/-- A persisted `customLists` value as `loadData` may find it: any list name
may be missing from the stored object. -/
structure SavedLists where
  rpas : Option (List String)
  pilots : Option (List String)
  payload : Option (List String)
  opCategories : Option (List String)
  observers : Option (List String)
  types : Option (List String)
  locations : Option (List String)
  airspaces : Option (List String)
  aerodromes : Option (List String)
  airspaceTypes : Option (List String)
deriving DecidableEq

/-- The stored value with every list name absent. -/
def emptySavedLists : SavedLists :=
  ⟨none, none, none, none, none, none, none, none, none, none⟩

/-- The list computation of `loadData` when a `customLists` settings row
exists: the object spread puts every default first and every persisted list
name over it, then the explicit `opCategories` entry keeps the persisted
list only when it exists and has more than one element. -/
def mergeLoadedLists (saved : SavedLists) : ListStore where
  rpas := saved.rpas.getD DEFAULT_LISTS.rpas
  pilots := saved.pilots.getD DEFAULT_LISTS.pilots
  payload := saved.payload.getD DEFAULT_LISTS.payload
  opCategories :=
    match saved.opCategories with
    | some l => if 1 < l.length then l else DEFAULT_LISTS.opCategories
    | none => DEFAULT_LISTS.opCategories
  observers := saved.observers.getD DEFAULT_LISTS.observers
  types := saved.types.getD DEFAULT_LISTS.types
  locations := saved.locations.getD DEFAULT_LISTS.locations
  airspaces := saved.airspaces.getD DEFAULT_LISTS.airspaces
  aerodromes := saved.aerodromes.getD DEFAULT_LISTS.aerodromes
  airspaceTypes := saved.airspaceTypes.getD DEFAULT_LISTS.airspaceTypes

/-- The list names, as the keys of `DEFAULT_LISTS`. -/
inductive ListKey where
  | pilots | rpas | observers | payload | opCategories
  | types | locations | airspaces | aerodromes | airspaceTypes
deriving DecidableEq

def getList (lists : ListStore) : ListKey → List String
  | .pilots => lists.pilots
  | .rpas => lists.rpas
  | .observers => lists.observers
  | .payload => lists.payload
  | .opCategories => lists.opCategories
  | .types => lists.types
  | .locations => lists.locations
  | .airspaces => lists.airspaces
  | .aerodromes => lists.aerodromes
  | .airspaceTypes => lists.airspaceTypes

def setList (lists : ListStore) (k : ListKey) (v : List String) : ListStore :=
  match k with
  | .pilots => { lists with pilots := v }
  | .rpas => { lists with rpas := v }
  | .observers => { lists with observers := v }
  | .payload => { lists with payload := v }
  | .opCategories => { lists with opCategories := v }
  | .types => { lists with types := v }
  | .locations => { lists with locations := v }
  | .airspaces => { lists with airspaces := v }
  | .aerodromes => { lists with aerodromes := v }
  | .airspaceTypes => { lists with airspaceTypes := v }

inductive ListAction where
  | add | del
deriving DecidableEq

/-- `handleUpdateList(key, value, action)` of the source, as the pure list
transformation one call performs on the snapshot it reads. -/
def handleUpdateList (lists : ListStore) (key : ListKey) (value : String)
    (action : ListAction) : ListStore :=
  let current := getList lists key
  match action with
  | .add => if current.contains value then lists else setList lists key (current ++ [value])
  | .del => setList lists key (current.filter (fun x => x != value))

/-! ### Mission form draft and mission records -/

/-- The draft the mission form edits.  The opaque embedded media fields
(sketch, weather image, NAV Canada file) and the numeric weather text fields
carry no logic the claims touch and are omitted; every field a claim reads
is present.  The field named end in the source keeps its name in guillemets. -/
structure FormData where
  start : String
  «end» : String
  location : String
  pilot : String
  rpas : String
  observer : String
  payload : String
  opCategory : String
  type : String
  airspace : String
  airspaceType : String
  proximity : String
  description : String
  aerodromes : List String
  risks : RiskMap
deriving DecidableEq

/-- The string-valued field names `update(k, v)` is called with. -/
inductive UpdateKey where
  | start | «end» | location | pilot | rpas | observer | payload
  | opCategory | type | airspace | airspaceType | proximity | description
deriving DecidableEq

/-- The spread `{ ...prev, [k]: v }` for a string-valued field. -/
def setField (prev : FormData) (k : UpdateKey) (v : String) : FormData :=
  match k with
  | .start => { prev with start := v }
  | .«end» => { prev with «end» := v }
  | .location => { prev with location := v }
  | .pilot => { prev with pilot := v }
  | .rpas => { prev with rpas := v }
  | .observer => { prev with observer := v }
  | .payload => { prev with payload := v }
  | .opCategory => { prev with opCategory := v }
  | .airspace => { prev with airspace := v }
  | .airspaceType => { prev with airspaceType := v }
  | .proximity => { prev with proximity := v }
  | .description => { prev with description := v }
  | .type => { prev with type := v }

/-- `update(k, v)` of the mission form: merge the value, and when `k` is
start and `v` non-empty additionally recompute end as `addMinutes(v, 30)`.
`none` is the exception `addMinutes` raises on an unparsable start. -/
def update (prev : FormData) (k : UpdateKey) (v : String) : Option FormData :=
  let newData := setField prev k v
  if k = UpdateKey.start ∧ v ≠ "" then
    match addMinutes v 30 with
    | some e => some { newData with «end» := e }
    | none => none
  else some newData

structure Coords where
  lat : String
  lng : String
deriving DecidableEq

/-- A persisted mission record: the draft fields plus coordinates and the
identity fields `saveMission` assigns. -/
structure Mission extends FormData where
  coords : Coords
  id : String
  created : String
deriving DecidableEq

/-- The record constructed at the end of `saveMission`:
`{ ...formData, coords, id: initialData?.id || generateId(),
   created: initialData?.created || new Date().toISOString() }`
(`freshId` is the `generateId()` draw, `now` the current ISO timestamp; the
falsy test on a string is the empty-string test). -/
def mkMission (fd : FormData) (coords : Coords) (initialData : Option Mission)
    (freshId now : String) : Mission :=
  { toFormData := fd
    coords := coords
    id := match initialData with
      | some m => if m.id = "" then freshId else m.id
      | none => freshId
    created := match initialData with
      | some m => if m.created = "" then now else m.created
      | none => now }

/-! ### Persistence (Dexie missions table, primary key id) -/

/-- `db.missions.put(m)`: insert-or-replace by primary key `id`. -/
def putMission (store : List Mission) (m : Mission) : List Mission :=
  if store.any (fun x => x.id == m.id) then
    store.map (fun x => if x.id = m.id then m else x)
  else store ++ [m]

/-- `db.missions.bulkPut(ms)`: put each record in order. -/
def bulkPut (store : List Mission) (ms : List Mission) : List Mission :=
  ms.foldl putMission store

/-- `db.missions.delete(id)`. -/
def deleteMission (store : List Mission) (id : String) : List Mission :=
  store.filter (fun x => x.id != id)

/-- A parsed backup document (top-level `missions` and `lists` fields; the
`version` and `backupDate` tags carry no behaviour).  `missions` is `some`
exactly when the field is present and an array. -/
structure BackupDoc where
  missions : Option (List Mission)
  lists : Option ListStore

/-- `handleRestore` once the file is parsed: with a missions array and user
confirmation the missions table is cleared and bulk-filled from the document
and, when the document has a `lists` field, the suggestion-list store is
replaced by it; otherwise nothing changes. -/
def handleRestore (store : List Mission) (lists : ListStore) (doc : BackupDoc)
    (confirmed : Bool) : List Mission × ListStore :=
  match doc.missions with
  | some ms =>
    if confirmed then (bulkPut ([] : List Mission) ms, (doc.lists).getD lists)
    else (store, lists)
  | none => (store, lists)

/-! ### Saving a mission -/

/-- `keysToCheck` of `saveMission`, in source order. -/
def keysToCheck : List ListKey :=
  [.pilots, .rpas, .observers, .payload, .opCategories,
   .types, .locations, .airspaces, .aerodromes, .airspaceTypes]

/-- `fieldMap`: the draft value backing a list name (the aerodromes value is
the string-array field and is handled separately). -/
def formFieldValue (fd : FormData) : ListKey → String
  | .pilots => fd.pilot
  | .rpas => fd.rpas
  | .observers => fd.observer
  | .payload => fd.payload
  | .opCategories => fd.opCategory
  | .types => fd.type
  | .locations => fd.location
  | .airspaces => fd.airspace
  | .airspaceTypes => fd.airspaceType
  | .aerodromes => ""

/-- The values of one list-backed field that pass the guard
`val && lists[listKey] && !lists[listKey].includes(val)` (for aerodromes,
each array item through the same guard). -/
def novelValues (lists : ListStore) (fd : FormData) (lk : ListKey) : List String :=
  match lk with
  | .aerodromes =>
    fd.aerodromes.filter (fun item => item ≠ "" ∧ ¬ (getList lists .aerodromes).contains item)
  | _ =>
    let val := formFieldValue fd lk
    if val ≠ "" ∧ ¬ (getList lists lk).contains val then [val] else []

/-- The `onUpdateList(listKey, value, add)` calls one save performs, in
order. -/
def collectAdds (lists : ListStore) (fd : FormData) : List (ListKey × String) :=
  keysToCheck.flatMap (fun lk => (novelValues lists fd lk).map (fun v => (lk, v)))

/-- The suggestion-list store the save leaves behind.  Every
`handleUpdateList` call inside one save reads the `lists` value captured at
render time and ends in `setLists(newLists)` / `db.settings.put(newLists)`,
which replace the whole store, so the last call wins and earlier calls of
the same save are lost. -/
def listsAfterSave (lists : ListStore) (fd : FormData) : ListStore :=
  match (collectAdds lists fd).getLast? with
  | none => lists
  | some kv => handleUpdateList lists kv.1 kv.2 .add

/-- `saveMission` of the mission form: `none` is the validation failure
(alert shown, nothing changed); on success the suggestion-list store after
the save and the finished record handed to `onSave`. -/
def saveMission (fd : FormData) (coords : Coords) (initialData : Option Mission)
    (lists : ListStore) (freshId now : String) : Option (ListStore × Mission) :=
  if fd.location = "" ∨ fd.pilot = "" then none
  else some (listsAfterSave lists fd, mkMission fd coords initialData freshId now)


/-! ### Concrete data used by witnesses and counterexamples -/

/-- A blank draft (the non-time fields of the initial form state). -/
def blankForm : FormData :=
  { start := "", «end» := "", location := "", pilot := "", rpas := "", observer := "",
    payload := "", opCategory := "Basic", type := "", airspace := "", airspaceType := "",
    proximity := "", description := "", aerodromes := [], risks := [] }

/-- A draft whose end the user customised by hand. -/
def editedDraft : FormData := { blankForm with «end» := "2024-06-01T12:34" }

/-- A draft that passes save validation. -/
def validDraft : FormData :=
  { blankForm with location := "Musquash Estuary", pilot := "Officer Leblanc" }

/-- A draft whose pilot and location are both novel relative to
`DEFAULT_LISTS` (the default locations list is empty, so any first save at a
site not yet listed is such a draft). -/
def twoNovelDraft : FormData :=
  { blankForm with location := "Grand Manan Wharf", pilot := "Officer Tremblay" }

def missionA : Mission :=
  { toFormData := validDraft, coords := ⟨"", ""⟩, id := "aaa111bbb",
    created := "2024-01-01T00:00:00.000Z" }

def missionB : Mission :=
  { toFormData := validDraft, coords := ⟨"", ""⟩, id := "ccc222ddd",
    created := "2024-02-01T00:00:00.000Z" }

def missionC : Mission :=
  { toFormData := validDraft, coords := ⟨"", ""⟩, id := "eee333fff",
    created := "2024-03-01T00:00:00.000Z" }

/-- A risk table with one checked hazard. -/
def rsChecked : RiskMap :=
  [("Presence of people", { checked := true, level := "", desc := "", mitigation := "" })]

/-- A risk table with one unchecked entry. -/
def rsUnchecked : RiskMap := [("Presence of people", defaultRiskEntry)]

/-- The risk table of the worked example in the spec. -/
def windRisk : RiskMap :=
  [("Strong wind condition",
    { checked := true, level := "High", desc := "", mitigation := "Abort if gusts exceed 30km/h" })]

/-- A persisted list store carrying only a pilots list that lacks the
built-in defaults. -/
def savedMissingDefaults : SavedLists :=
  { emptySavedLists with pilots := some ["Officer Tremblay"] }

/-! ### Helper lemmas -/

theorem mem_setKey {rs : RiskMap} {k : String} {v : RiskEntry} {p : String × RiskEntry}
    (hp : p ∈ setKey rs k v) : p ∈ rs ∨ p = (k, v) := by
  induction rs with
  | nil => simp [setKey] at hp; right; exact hp
  | cons q rest ih =>
    by_cases hq : q.1 = k
    · simp only [setKey, if_pos hq] at hp
      rcases List.mem_cons.mp hp with h | h
      · right; exact h
      · left; exact List.mem_cons_of_mem _ h
    · simp only [setKey, if_neg hq] at hp
      rcases List.mem_cons.mp hp with h | h
      · left; exact h ▸ List.mem_cons_self _ _
      · rcases ih h with h2 | h2
        · left; exact List.mem_cons_of_mem _ h2
        · right; exact h2

theorem mem_delKey {rs : RiskMap} {k : String} {p : String × RiskEntry}
    (hp : p ∈ delKey rs k) : p ∈ rs := by
  induction rs with
  | nil => simp [delKey] at hp
  | cons q rest ih =>
    by_cases hq : q.1 = k
    · simp only [delKey, if_pos hq] at hp
      exact List.mem_cons_of_mem _ (ih hp)
    · simp only [delKey, if_neg hq] at hp
      rcases List.mem_cons.mp hp with h | h
      · exact h ▸ List.mem_cons_self _ _
      · exact List.mem_cons_of_mem _ (ih h)

theorem lookupKey_delKey (rs : RiskMap) (k : String) :
    lookupKey (delKey rs k) k = none := by
  induction rs with
  | nil => rfl
  | cons q rest ih =>
    by_cases hq : q.1 = k
    · simp only [delKey, if_pos hq]; exact ih
    · simp only [delKey, if_neg hq, lookupKey, ih, if_neg hq]

theorem lookupKey_mem {rs : RiskMap} {k : String} {e : RiskEntry}
    (h : lookupKey rs k = some e) : (k, e) ∈ rs := by
  induction rs with
  | nil => simp [lookupKey] at h
  | cons q rest ih =>
    by_cases hq : q.1 = k
    · simp only [lookupKey, if_pos hq, Option.some.injEq] at h
      have : q = (k, e) := by
        cases q; cases hq; cases h; rfl
      exact this ▸ List.mem_cons_self _ _
    · simp only [lookupKey, if_neg hq] at h
      exact List.mem_cons_of_mem _ (ih h)

theorem riskInv_setKey {rs : RiskMap} {k : String} {v : RiskEntry}
    (hinv : riskInv rs) (hv : v.checked = true) : riskInv (setKey rs k v) := by
  intro p hp
  rcases mem_setKey hp with h | h
  · exact hinv p h
  · rw [h]; exact hv

/-! ### Claim C1: setting start recomputes end -/

/-- Claim C1: for every draft and every non-empty start value that is a
well-formed datetime-local string (the only non-empty values the start input
control produces), `update(start, v)` sets start to `v` and recomputes end
to exactly `v` plus 30 minutes, overwriting whatever end the draft held;
no other field changes. -/
theorem update_start_recomputes_end (d : FormData) (v e : String)
    (hv : v ≠ "") (he : addMinutes v 30 = some e) :
    update d UpdateKey.start v = some { d with start := v, «end» := e } := by
  simp [update, setField, hv, he]

/-- Witness for C1 at the worked example of the spec: start
2024-06-01T09:00 on a draft whose end the user had customised yields end
2024-06-01T09:30. -/
theorem update_start_recomputes_end_witness :
    update editedDraft UpdateKey.start "2024-06-01T09:00" =
      some { editedDraft with start := "2024-06-01T09:00", «end» := "2024-06-01T09:30" } :=
  update_start_recomputes_end editedDraft "2024-06-01T09:00" "2024-06-01T09:30"
    (by decide) (by decide)

/-! ### Claim C2: risk entries exist only while checked -/

/-- Counterexample to C2 as stated: from the empty risks map, the single
call `handleRiskChange(name, level, High)` creates an entry whose checked
field is false, so a key can exist whose entry is not checked. -/
theorem handleRiskChange_unchecked_counterexample :
    lookupKey (handleRiskChange [] "Any other risk" (RiskUpdate.level "High")) "Any other risk" =
      some { checked := false, level := "High", desc := "", mitigation := "" } := by
  decide

/-- Claim C2 as amended: the keys-are-checked invariant is preserved by
every `handleRiskChange` call that either updates the checked field or
targets a hazard already present (every call the form can issue is of this
shape: the level, desc and mitigation editors render only for checked
hazards); and unchecking a hazard always deletes its entry outright. -/
theorem handleRiskChange_inv (rs : RiskMap) (name : String) (u : RiskUpdate)
    (hinv : riskInv rs)
    (hu : (∃ b, u = RiskUpdate.checked b) ∨ (lookupKey rs name).isSome = true) :
    riskInv (handleRiskChange rs name u) ∧
    lookupKey (handleRiskChange rs name (RiskUpdate.checked false)) name = none := by
  refine ⟨?_, ?_⟩
  · cases u with
    | checked b =>
      cases b
      · intro p hp
        simp only [handleRiskChange] at hp
        exact hinv p (mem_delKey hp)
      · simp only [handleRiskChange]
        exact riskInv_setKey hinv rfl
    | level v =>
      have hs : (lookupKey rs name).isSome = true := by
        rcases hu with ⟨b, hb⟩ | hs
        · cases hb
        · exact hs
      obtain ⟨e, he⟩ := Option.isSome_iff_exists.mp hs
      have hch : e.checked = true := hinv _ (lookupKey_mem he)
      simp only [handleRiskChange, he, Option.getD_some]
      exact riskInv_setKey hinv hch
    | desc v =>
      have hs : (lookupKey rs name).isSome = true := by
        rcases hu with ⟨b, hb⟩ | hs
        · cases hb
        · exact hs
      obtain ⟨e, he⟩ := Option.isSome_iff_exists.mp hs
      have hch : e.checked = true := hinv _ (lookupKey_mem he)
      simp only [handleRiskChange, he, Option.getD_some]
      exact riskInv_setKey hinv hch
    | mitigation v =>
      have hs : (lookupKey rs name).isSome = true := by
        rcases hu with ⟨b, hb⟩ | hs
        · cases hb
        · exact hs
      obtain ⟨e, he⟩ := Option.isSome_iff_exists.mp hs
      have hch : e.checked = true := hinv _ (lookupKey_mem he)
      simp only [handleRiskChange, he, Option.getD_some]
      exact riskInv_setKey hinv hch
  · simp only [handleRiskChange]
    exact lookupKey_delKey rs name

/-- Witness for C2 as amended, on a one-entry checked table: a level update
of the present hazard keeps the invariant, and unchecking deletes the
entry. -/
theorem handleRiskChange_inv_witness :
    riskInv (handleRiskChange rsChecked "Presence of people" (RiskUpdate.level "High")) ∧
    lookupKey (handleRiskChange rsChecked "Presence of people" (RiskUpdate.checked false))
      "Presence of people" = none :=
  handleRiskChange_inv rsChecked "Presence of people" (RiskUpdate.level "High")
    (by unfold riskInv rsChecked; decide) (Or.inr (by decide))

/-! ### Claim C3: list-store load merges shallowly, not per entry -/

/-- Counterexample to C3 as stated: a persisted pilots list that omits the
built-in defaults replaces the pilots list wholesale on load, so the
built-in entry Officer Smith is not a member of the loaded list. -/
theorem loadData_merge_counterexample :
    "Officer Smith" ∈ DEFAULT_LISTS.pilots ∧
    "Officer Smith" ∉ (mergeLoadedLists savedMissingDefaults).pilots := by
  decide

/-- Claim C3 as amended: the merge on load is shallow, at the level of list
names.  A list name absent from the persisted value falls back to the
built-in default list, but a persisted list replaces the built-in list for
that name wholesale (omitted built-in entries do not reappear) — except
opCategories, which keeps the persisted list only when it has more than one
element and otherwise falls back to the defaults. -/
theorem loadData_shallow_merge (saved : SavedLists) :
    (mergeLoadedLists saved).pilots = saved.pilots.getD DEFAULT_LISTS.pilots ∧
    (mergeLoadedLists saved).rpas = saved.rpas.getD DEFAULT_LISTS.rpas ∧
    (mergeLoadedLists saved).payload = saved.payload.getD DEFAULT_LISTS.payload ∧
    (mergeLoadedLists saved).observers = saved.observers.getD DEFAULT_LISTS.observers ∧
    (mergeLoadedLists saved).types = saved.types.getD DEFAULT_LISTS.types ∧
    (mergeLoadedLists saved).locations = saved.locations.getD DEFAULT_LISTS.locations ∧
    (mergeLoadedLists saved).airspaces = saved.airspaces.getD DEFAULT_LISTS.airspaces ∧
    (mergeLoadedLists saved).aerodromes = saved.aerodromes.getD DEFAULT_LISTS.aerodromes ∧
    (mergeLoadedLists saved).airspaceTypes = saved.airspaceTypes.getD DEFAULT_LISTS.airspaceTypes ∧
    (mergeLoadedLists saved).opCategories =
      (match saved.opCategories with
       | some l => if 1 < l.length then l else DEFAULT_LISTS.opCategories
       | none => DEFAULT_LISTS.opCategories) :=
  ⟨rfl, rfl, rfl, rfl, rfl, rfl, rfl, rfl, rfl, rfl⟩

/-! ### Claim C4: record identity -/

theorem putMission_nodup_ids {store : List Mission} {m : Mission}
    (h : (store.map Mission.id).Nodup) :
    ((putMission store m).map Mission.id).Nodup := by
  by_cases hany : store.any (fun x => x.id == m.id) = true
  · rw [putMission, if_pos hany, List.map_map]
    have hmaps : store.map (Mission.id ∘ fun x => if x.id = m.id then m else x) =
        store.map Mission.id := by
      apply List.map_congr_left
      intro x _
      by_cases hx : x.id = m.id
      · simp [Function.comp, hx]
      · simp [Function.comp, hx]
    rw [hmaps]
    exact h
  · have hfalse : store.any (fun x => x.id == m.id) = false := eq_false_of_ne_true hany
    have hnot : m.id ∉ store.map Mission.id := by
      intro hmem
      obtain ⟨x, hx, hxid⟩ := List.mem_map.mp hmem
      have hx2 := List.any_eq_false.mp hfalse x hx
      simp only [beq_iff_eq] at hx2
      exact hx2 hxid
    rw [putMission, if_neg hany, List.map_append]
    exact List.Nodup.append h (List.nodup_singleton _) (List.disjoint_singleton.mpr hnot)

/-- Counterexample to C4 as stated: `Math.random` may return exactly 0, in
which case `toString(36)` renders just the character 0 and `substr(2, 9)` is
the empty string, so a successful save emits a record whose id is empty. -/
theorem saveMission_empty_id_counterexample :
    generateId [] = "" ∧
    (saveMission validDraft ⟨"45.1", "-66.3"⟩ none DEFAULT_LISTS (generateId [])
        "2024-06-01T12:00:00.000Z").map (fun r => r.2.id) = some "" := by
  decide

/-- Claim C4 as amended: ids are pairwise distinct across the stored set (an
invariant the id-keyed put preserves); the generated id is non-empty
whenever the random draw is non-zero; and a save of an existing record keeps
its id and created unchanged while a first save assigns the fresh id and the
current timestamp. -/
theorem mission_identity_invariants (store : List Mission) (m : Mission)
    (fd : FormData) (cs : Coords) (m0 : Mission) (digits : List Char)
    (freshId now : String)
    (h1 : (store.map Mission.id).Nodup) (h2 : digits ≠ [])
    (h3 : m0.id ≠ "") (h4 : m0.created ≠ "") :
    ((putMission store m).map Mission.id).Nodup ∧
    generateId digits ≠ "" ∧
    (mkMission fd cs (some m0) freshId now).id = m0.id ∧
    (mkMission fd cs (some m0) freshId now).created = m0.created ∧
    (mkMission fd cs none freshId now).id = freshId ∧
    (mkMission fd cs none freshId now).created = now := by
  refine ⟨putMission_nodup_ids h1, ?_, ?_, ?_, rfl, rfl⟩
  · cases digits with
    | nil => exact absurd rfl h2
    | cons c rest =>
      intro hc
      have := congrArg String.data hc
      simp [generateId] at this
  · simp [mkMission, h3]
  · simp [mkMission, h4]

/-- Witness for C4 as amended at concrete records. -/
theorem mission_identity_invariants_witness :
    ((putMission [missionA] missionB).map Mission.id).Nodup ∧
    generateId ['a'] ≠ "" ∧
    (mkMission validDraft ⟨"", ""⟩ (some missionA) "zzz999yyy" "2024-06-02T00:00:00.000Z").id =
      missionA.id ∧
    (mkMission validDraft ⟨"", ""⟩ (some missionA) "zzz999yyy"
      "2024-06-02T00:00:00.000Z").created = missionA.created ∧
    (mkMission validDraft ⟨"", ""⟩ none "zzz999yyy" "2024-06-02T00:00:00.000Z").id =
      "zzz999yyy" ∧
    (mkMission validDraft ⟨"", ""⟩ none "zzz999yyy" "2024-06-02T00:00:00.000Z").created =
      "2024-06-02T00:00:00.000Z" :=
  mission_identity_invariants [missionA] missionB validDraft ⟨"", ""⟩ missionA ['a']
    "zzz999yyy" "2024-06-02T00:00:00.000Z" (by decide) (by decide) (by decide) (by decide)

/-! ### Claim C5: restore replaces the record set -/

theorem bulkPut_of_fresh (store : List Mission) (ms : List Mission)
    (hd : ∀ x ∈ ms, x.id ∉ store.map Mission.id)
    (hn : (ms.map Mission.id).Nodup) :
    bulkPut store ms = store ++ ms := by
  induction ms generalizing store with
  | nil => simp [bulkPut]
  | cons m rest ih =>
    have hm : m.id ∉ store.map Mission.id := hd m (List.mem_cons_self _ _)
    have hany : store.any (fun x => x.id == m.id) = false := by
      apply List.any_eq_false.mpr
      intro x hx
      simp only [beq_iff_eq]
      intro hxid
      exact hm (List.mem_map.mpr ⟨x, hx, hxid⟩)
    have hput : putMission store m = store ++ [m] := by
      simp [putMission, hany]
    have hrest : bulkPut (store ++ [m]) rest = (store ++ [m]) ++ rest := by
      apply ih
      · intro x hx
        simp only [List.map_append, List.mem_append, List.map_cons, List.map_nil,
          List.mem_singleton, not_or]
        constructor
        · exact fun hmem => hd x (List.mem_cons_of_mem _ hx) hmem
        · simp only [List.map_cons, List.map_nil, List.nodup_cons] at hn
          intro hxid
          exact hn.1 (hxid ▸ List.mem_map.mpr ⟨x, hx, rfl⟩)
      · simp only [List.map_cons, List.nodup_cons] at hn
        exact hn.2
    calc bulkPut store (m :: rest) = bulkPut (putMission store m) rest := by
          simp [bulkPut]
      _ = (store ++ [m]) ++ rest := by rw [hput]; exact hrest
      _ = store ++ (m :: rest) := by simp

/-- Claim C5: a confirmed restore from a document whose missions field is an
array (of records with pairwise distinct ids, as every backup of a keyed
store is) makes the stored record set exactly that array, regardless of
what was stored before, and replaces the suggestion-list store by the
document's lists field whenever one is present. -/
theorem handleRestore_replaces (store : List Mission) (lists : ListStore)
    (doc : BackupDoc) (ms : List Mission)
    (h1 : doc.missions = some ms) (h2 : (ms.map Mission.id).Nodup) :
    (handleRestore store lists doc true).1 = ms ∧
    (handleRestore store lists doc true).2 = (doc.lists).getD lists := by
  have hbulk : bulkPut ([] : List Mission) ms = ms := by
    have := bulkPut_of_fresh [] ms (by simp) h2
    simpa using this
  simp [handleRestore, h1, hbulk]

/-- Witness for C5 at the example of the spec: records A and B restored
from a backup holding only C leave exactly C. -/
theorem handleRestore_replaces_witness :
    (handleRestore [missionA, missionB] DEFAULT_LISTS
      ⟨some [missionC], none⟩ true).1 = [missionC] ∧
    (handleRestore [missionA, missionB] DEFAULT_LISTS
      ⟨some [missionC], none⟩ true).2 =
      (BackupDoc.lists ⟨some [missionC], none⟩).getD DEFAULT_LISTS :=
  handleRestore_replaces [missionA, missionB] DEFAULT_LISTS
    ⟨some [missionC], none⟩ [missionC] rfl (by decide)

/-! ### Claim C6: CSV escaping and round-trip -/

theorem undouble_doubleQuotes (cs : List Char) : undouble (doubleQuotes cs) = cs := by
  induction cs with
  | nil => rfl
  | cons c cs ih =>
    by_cases hc : c = '"'
    · subst hc
      simp only [doubleQuotes, if_pos rfl, List.cons_append, List.nil_append]
      simp [undouble, ih]
    · have hstep : undouble (c :: doubleQuotes cs) = c :: undouble (doubleQuotes cs) := by
        cases hd : doubleQuotes cs with
        | nil => rfl
        | cons d ds =>
          rw [undouble.eq_def]
          show (if c = '"' ∧ d = '"' then '"' :: undouble ds
            else c :: undouble (d :: ds)) = c :: undouble (d :: ds)
          rw [if_neg (fun hcon => hc hcon.1)]
      simp only [doubleQuotes, if_neg hc, List.cons_append, List.nil_append]
      rw [hstep, ih]

theorem needsQuoting_iff (s : String) :
    needsQuoting s = true ↔ (',' ∈ s.data ∨ '"' ∈ s.data ∨ '\n' ∈ s.data) := by
  simp [needsQuoting, List.contains, List.elem_iff, Bool.or_eq_true, or_assoc]

/-- Claim C6: `escapeCSV` wraps the value in double quotes with internal
quotes doubled exactly when the value contains a comma, a double quote or a
newline, leaves it unchanged otherwise, and standard CSV unquoting of the
escaped field recovers the original string for every string. -/
theorem escapeCSV_roundtrip (s : String) :
    (needsQuoting s = true ↔ (',' ∈ s.data ∨ '"' ∈ s.data ∨ '\n' ∈ s.data)) ∧
    (needsQuoting s = true →
      escapeCSV s = "\"" ++ String.mk (doubleQuotes s.data) ++ "\"") ∧
    (needsQuoting s = false → escapeCSV s = s) ∧
    parseCSVField (escapeCSV s) = s := by
  refine ⟨needsQuoting_iff s, fun h => by simp [escapeCSV, h], fun h => by simp [escapeCSV, h], ?_⟩
  by_cases h : needsQuoting s = true
  · have hdata : (escapeCSV s).data = '"' :: (doubleQuotes s.data ++ ['"']) := by
      simp [escapeCSV, h, String.data_append]
    rw [parseCSVField, hdata]
    simp only [List.getLast?_concat, if_pos rfl, List.dropLast_concat]
    rw [undouble_doubleQuotes]
    exact String.ext rfl
  · have hfalse : needsQuoting s = false := eq_false_of_ne_true h
    have hesc : escapeCSV s = s := by simp [escapeCSV, hfalse]
    rw [hesc]
    have hq : '"' ∉ s.data := by
      intro hm
      exact h ((needsQuoting_iff s).mpr (Or.inr (Or.inl hm)))
    rw [parseCSVField]
    split
    · next rest heq => exact absurd (heq ▸ List.mem_cons_self _ _) hq
    · rfl

/-- Witness for C6 at a location value containing a comma. -/
theorem escapeCSV_roundtrip_witness :
    parseCSVField (escapeCSV "Halifax, NS") = "Halifax, NS" ∧
    escapeCSV "Halifax, NS" = "\"Halifax, NS\"" :=
  ⟨(escapeCSV_roundtrip "Halifax, NS").2.2.2, by decide⟩

/-! ### Claim C7: risk-summary rendering -/

/-- Claim C7: the CSV risk-summary column is built from the checked entries
only, each rendered by `renderRisk` (hazard, level-or-dash in brackets, the
mitigation clause omitted when the mitigation text is empty) and joined by
the bar separator; appending an unchecked entry changes nothing; a missing
or empty risk set renders as None; and the worked example of the spec
renders exactly as stated. -/
theorem formatRisks_checked_rendering (rs : RiskMap) (k : String) (v : RiskEntry)
    (hne : rs ≠ []) (hv : v.checked = false) :
    formatRisks (some rs) =
      joinSep " | " ((rs.filter (fun p => p.2.checked)).map (fun p => renderRisk p.1 p.2)) ∧
    formatRisks (some (rs ++ [(k, v)])) = formatRisks (some rs) ∧
    formatRisks none = "None" ∧
    formatRisks (some ([] : RiskMap)) = "None" ∧
    formatRisks (some windRisk) =
      "Strong wind condition [High] (Mitigation: Abort if gusts exceed 30km/h)" := by
  refine ⟨by simp [formatRisks, hne], ?_, rfl, rfl, by decide⟩
  have hne2 : rs ++ [(k, v)] ≠ [] := by simp
  simp [formatRisks, hne, hne2, List.filter_append, hv]

/-- Witness for C7 at the worked example plus one unchecked hazard. -/
theorem formatRisks_checked_rendering_witness :
    formatRisks (some (windRisk ++ [("Presence of people", defaultRiskEntry)])) =
      formatRisks (some windRisk) :=
  (formatRisks_checked_rendering windRisk "Presence of people" defaultRiskEntry
    (by decide) rfl).2.1

/-! ### Claim C8: save validation -/

/-- Claim C8: `saveMission` fails (alert, nothing changed) exactly when the
location or the pilot is empty; with both non-empty it proceeds, emitting
the updated suggestion-list store and the finished record. -/
theorem saveMission_validation (fd : FormData) (cs : Coords) (initialData : Option Mission)
    (lists : ListStore) (freshId now : String) :
    saveMission fd cs initialData lists freshId now =
      (if fd.location = "" ∨ fd.pilot = "" then none
       else some (listsAfterSave lists fd, mkMission fd cs initialData freshId now)) ∧
    (saveMission fd cs initialData lists freshId now = none ↔
      (fd.location = "" ∨ fd.pilot = "")) := by
  refine ⟨rfl, ?_, ?_⟩
  · intro h
    by_cases hcond : fd.location = "" ∨ fd.pilot = ""
    · exact hcond
    · simp [saveMission, hcond] at h
  · intro h
    simp [saveMission, h]

/-! ### Claim C9: list growth on save (code bug: last write wins) -/

/-- Claim C9 evidence: from the default lists, saving a draft whose pilot
and location are both novel succeeds and requests an add for each of them,
yet the pilot never reaches the pilots list — each `handleUpdateList` call
starts from the stale render-time store and the final whole-store write is
the last call's, so only the location (processed last) survives. -/
theorem saveMission_loses_novel_pilot :
    twoNovelDraft.pilot = "Officer Tremblay" ∧
    "Officer Tremblay" ∉ DEFAULT_LISTS.pilots ∧
    (saveMission twoNovelDraft ⟨"", ""⟩ none DEFAULT_LISTS "abc123def"
      "2024-06-01T12:00:00.000Z").isSome = true ∧
    collectAdds DEFAULT_LISTS twoNovelDraft =
      [(ListKey.pilots, "Officer Tremblay"), (ListKey.locations, "Grand Manan Wharf")] ∧
    "Officer Tremblay" ∉ (listsAfterSave DEFAULT_LISTS twoNovelDraft).pilots ∧
    "Grand Manan Wharf" ∈ (listsAfterSave DEFAULT_LISTS twoNovelDraft).locations := by
  decide

/-! ### Claim C10: blank summary versus None -/

theorem bracket_mem_renderRisk (k : String) (v : RiskEntry) :
    '[' ∈ (renderRisk k v).data := by
  simp only [renderRisk, String.data_append, List.mem_append]
  left; left; left; right
  decide

theorem mem_data_joinSep_head (sep x : String) (xs : List String) (c : Char)
    (hc : c ∈ x.data) : c ∈ (joinSep sep (x :: xs)).data := by
  cases xs with
  | nil => exact hc
  | cons y ys =>
    simp only [joinSep, String.data_append, List.mem_append]
    left; left
    exact hc

/-- Claim C10: the risk summary is None exactly for a missing or empty risks
map; a non-empty map whose entries are all unchecked renders as the empty
string, a blank CSV column, not None. -/
theorem formatRisks_blank_vs_none (rs : RiskMap) (r : Option RiskMap)
    (h1 : rs ≠ []) (h2 : ∀ p ∈ rs, p.2.checked = false) :
    formatRisks (some rs) = "" ∧
    (formatRisks r = "None" ↔ r = none ∨ r = some []) := by
  constructor
  · have hfilter : rs.filter (fun p => p.2.checked) = [] :=
      List.filter_eq_nil_iff.mpr (fun p hp => by simp [h2 p hp])
    simp [formatRisks, h1, hfilter, joinSep]
  · constructor
    · intro h
      match r with
      | none => exact Or.inl rfl
      | some rs2 =>
        by_cases he : rs2 = []
        · exact Or.inr (by rw [he])
        · exfalso
          rw [formatRisks, if_neg he] at h
          cases hf : rs2.filter (fun p => p.2.checked) with
          | nil =>
            rw [hf] at h
            simp only [List.map_nil, joinSep] at h
            exact absurd h (by decide)
          | cons q qs =>
            rw [hf] at h
            simp only [List.map_cons] at h
            have hb : '[' ∈ (joinSep " | "
                (renderRisk q.1 q.2 :: qs.map (fun p => renderRisk p.1 p.2))).data :=
              mem_data_joinSep_head _ _ _ _ (bracket_mem_renderRisk q.1 q.2)
            rw [h] at hb
            exact absurd hb (by decide)
    · intro h
      rcases h with h | h <;> rw [h] <;> rfl

/-- Witness for C10 at a one-entry unchecked table. -/
theorem formatRisks_blank_vs_none_witness :
    formatRisks (some rsUnchecked) = "" ∧
    (formatRisks (some rsUnchecked) = "None" ↔
      some rsUnchecked = none ∨ some rsUnchecked = some ([] : RiskMap)) :=
  formatRisks_blank_vs_none rsUnchecked (some rsUnchecked) (by decide)
    (by unfold rsUnchecked defaultRiskEntry; decide)
